import Mathlib

/-!
Shallow embedding of the alarm scheduling pipeline of tizreal/OS_Deliverable3.

The repository concatenates three revisions of `New_Alarm_Cond.c`.  The
second revision (the one defining `circular_buffer_t`, `handle_start_alarm`,
`handle_cancel_alarm` and the request-typed `alarm_t`) is the unit the
claims cite for the Timeline, the wait protocol, cancellation, request
validation and the Handoff Buffer; the first revision contributes
`change_alarm`; `alarm_utils.c` contributes the request classification.

Machine integers (`int`, `time_t`) are modelled as `Int`; C strings as
`String` (for alarm messages) or `List Char` (for raw input lines, where
prefix comparison matters); linked lists as `List`; a blocked primitive or
an undefined-behaviour crash as `Option.none`.
-/

namespace NewAlarmCond

/-- request classification enum from `alarm_utils.h`. -/
inductive alarm_request_type where
  | START_ALARM
  | CHANGE_ALARM
  | CANCEL_ALARM
  | INVALID_REQUEST
deriving DecidableEq

/-- the `alarm_tag` structure of the second revision of `New_Alarm_Cond.c`:
id, seconds (interval), time (absolute deadline, seconds from the epoch),
message, and the request kind.  The `link` pointer is absorbed into the
`List` representation of `alarm_list`. -/
structure alarm_t where
  id : Int
  seconds : Int
  time : Int
  message : String
  alarm_type : alarm_request_type
deriving DecidableEq

/-- the shared state touched by `alarm_insert`: the global `alarm_list`
(the Timeline) and the global `current_alarm` (the Current Wait Target,
`0` meaning idle). -/
structure AlarmState where
  alarm_list : List alarm_t
  current_alarm : Int
deriving DecidableEq

/-- the insertion walk of `alarm_insert` (second revision, lines 617-637):
walk the list and link the new alarm in front of the first entry `next`
with `next->time >= alarm->time`; if the walk reaches the end, append. -/
def insert_sorted (alarm : alarm_t) : List alarm_t → List alarm_t
  | [] => [alarm]
  | next :: rest =>
      if next.time ≥ alarm.time then alarm :: next :: rest
      else next :: insert_sorted alarm rest

/-- the duplicate-id scan at the top of `alarm_insert` (second revision,
lines 599-606): `for (ptr = alarm_list; ptr; ptr = ptr->link) if (ptr->id == alarm->id) ...`. -/
def hasId (i : Int) (l : List alarm_t) : Bool :=
  l.any fun ptr => ptr.id = i

/-- alarm_insert of the second revision (lines 594-657).  Requires the
Timeline lock.  When the duplicate-id scan finds a live entry with the same
id, the source prints an error, frees the new alarm and sets the local
pointer to NULL, but then falls through (no early return) into the
insertion walk, which immediately dereferences the NULL pointer
(`next->time >= alarm->time`): undefined behaviour, modelled as `none`.
Otherwise the alarm is linked in sorted position and, when
`current_alarm == 0 || alarm->time < current_alarm`, the Current Wait
Target is retargeted to `alarm->time` and the condition variable is
signalled (the returned `Bool`). -/
def alarm_insert (alarm : alarm_t) (s : AlarmState) : Option (AlarmState × Bool) :=
  if hasId alarm.id s.alarm_list then
    none
  else if s.current_alarm = 0 ∨ alarm.time < s.current_alarm then
    some ({ alarm_list := insert_sorted alarm s.alarm_list,
            current_alarm := alarm.time }, true)
  else
    some ({ alarm_list := insert_sorted alarm s.alarm_list,
            current_alarm := s.current_alarm }, false)

/-- the head-taking step at the top of the `alarm_thread` loop (second
revision, lines 685-695): `current_alarm = 0`; while the list is empty the
thread blocks on the condition variable (modelled as `none`); once
non-empty it unlinks the head — `alarm = alarm_list; alarm_list = alarm->link;` —
and proceeds to dispatch it. -/
def alarm_thread_take (s : AlarmState) : Option (alarm_t × AlarmState) :=
  match s.alarm_list with
  | [] => none
  | alarm :: rest => some (alarm, { alarm_list := rest, current_alarm := 0 })

/-- the two messages the claims distinguish for `handle_cancel_alarm`:
the source's single unconditional confirmation printf
("Alarm Thread ... Has Cancelled and Removed All Alarm Requests With
Alarm ID ..."), and the "not found" report the spec expects (which the
source never produces). -/
inductive CancelReport where
  | removedAll
  | notFound
deriving DecidableEq

/-- the unlink loop of `handle_cancel_alarm` (second revision, lines
808-823): every node with the given id is unlinked and freed, all other
nodes are kept in order. -/
def remove_all_with_id (alarm_id : Int) : List alarm_t → List alarm_t
  | [] => []
  | next :: rest =>
      if next.id = alarm_id then remove_all_with_id alarm_id rest
      else next :: remove_all_with_id alarm_id rest

/-- handle_cancel_alarm (second revision, lines 801-832): unlinks all
entries with the given id, then unconditionally prints the cancellation
confirmation — there is no "not found" branch in the source. -/
def handle_cancel_alarm (alarm_id : Int) (l : List alarm_t) :
    List alarm_t × CancelReport :=
  (remove_all_with_id alarm_id l, CancelReport.removedAll)

/-- outcome of one request branch of `main` (second revision). -/
inductive RequestOutcome where
  | rejected
  | crashed
  | inserted (s : AlarmState) (signaled : Bool)
deriving DecidableEq

/-- the CANCEL_ALARM branch of `main` (second revision, lines 547-581).
`parsed_alarm_id` is the value `sscanf` extracted from the
`Cancel_Alarm(%d)` line; `alarm` is the freshly malloc'd record whose `id`
and `seconds` fields were never assigned in this branch (uninitialized
memory, modelled as an arbitrary input).  The source validates
`alarm->id <= 0 || alarm->seconds < 0` — the uninitialized fields, not the
parsed id — then sets `alarm->time = now + alarm->seconds`, tags the record
CANCEL_ALARM and inserts it into the Timeline; the parsed id is never used. -/
def main_cancel_branch (parsed_alarm_id : Int) (alarm : alarm_t) (now : Int)
    (s : AlarmState) : RequestOutcome :=
  if alarm.id ≤ 0 ∨ alarm.seconds < 0 then RequestOutcome.rejected
  else
    match alarm_insert
        { alarm with time := now + alarm.seconds,
                     alarm_type := alarm_request_type.CANCEL_ALARM } s with
    | none => RequestOutcome.crashed
    | some (s', sig) => RequestOutcome.inserted s' sig

/-- capacity of the Handoff Buffer (`#define CIRCULAR_BUFFER_SIZE 4`). -/
def CIRCULAR_BUFFER_SIZE : Nat := 4

/-- circular_buffer_t (second revision, lines 415-423): four slots each
holding one fired-alarm pointer (`none` = never written), the insertion and
removal cursors, and the occupancy count.  The mutex and the two condition
variables are absorbed into the blocking (`none`) results of the
operations. -/
structure circular_buffer_t where
  buffer : List (Option alarm_t)
  insert_at : Nat
  remove_at : Nat
  count : Nat
deriving DecidableEq

/-- structural well-formedness of the buffer: four slots, cursors in
range, occupancy within capacity, and the insertion cursor sits `count`
slots (mod 4) past the removal cursor. -/
def circ_buff_wf (b : circular_buffer_t) : Prop :=
  b.buffer.length = CIRCULAR_BUFFER_SIZE ∧
  b.insert_at < CIRCULAR_BUFFER_SIZE ∧
  b.remove_at < CIRCULAR_BUFFER_SIZE ∧
  b.count ≤ CIRCULAR_BUFFER_SIZE ∧
  b.insert_at = (b.remove_at + b.count) % CIRCULAR_BUFFER_SIZE

instance (b : circular_buffer_t) : Decidable (circ_buff_wf b) := by
  unfold circ_buff_wf; infer_instance

/-- the producer side, inlined in `alarm_thread` (second revision, lines
715-727): while `count == CIRCULAR_BUFFER_SIZE` the producer blocks on
`not_full` (modelled as `none`); otherwise it stores at `insert_at`,
advances `insert_at` modulo the capacity, increments `count` and signals
`not_empty`. -/
def circ_buff_insert (alarm : alarm_t) (b : circular_buffer_t) :
    Option circular_buffer_t :=
  if b.count = CIRCULAR_BUFFER_SIZE then none
  else some { buffer := b.buffer.set b.insert_at (some alarm),
              insert_at := (b.insert_at + 1) % CIRCULAR_BUFFER_SIZE,
              remove_at := b.remove_at,
              count := b.count + 1 }

/-- Modelled from the spec: the consumer side of the Handoff Buffer.
`consumer_thread` in the source is an empty placeholder, so the pop
operation is taken from spec section 4.2: "`pop()` blocks while empty, then
reads at the removal cursor, advances it modulo N, decrements occupancy,
and wakes one waiting producer."  Blocking is modelled as `none`. -/
def circ_buff_remove (b : circular_buffer_t) :
    Option (Option alarm_t × circular_buffer_t) :=
  if b.count = 0 then none
  else some (b.buffer.getD b.remove_at none,
             { buffer := b.buffer,
               insert_at := b.insert_at,
               remove_at := (b.remove_at + 1) % CIRCULAR_BUFFER_SIZE,
               count := b.count - 1 })

/-- the `alarm_tag` structure of the first revision of `New_Alarm_Cond.c`
(the revision defining `change_alarm`): alarm_id, seconds, scheduled_time
(absolute deadline) and message. -/
structure AlarmV1 where
  alarm_id : Int
  seconds : Int
  scheduled_time : Int
  message : String
deriving DecidableEq

/-- Timeline state of the first revision. -/
structure AlarmStateV1 where
  alarm_list : List AlarmV1
  current_alarm : Int
deriving DecidableEq

/-- the insertion walk of the first revision's `alarm_insert` (lines
72-94): identical to the second revision's walk but keyed on
`scheduled_time`, and with no duplicate-id scan. -/
def insert_sorted_v1 (alarm : AlarmV1) : List AlarmV1 → List AlarmV1
  | [] => [alarm]
  | next :: rest =>
      if next.scheduled_time ≥ alarm.scheduled_time then alarm :: next :: rest
      else next :: insert_sorted_v1 alarm rest

/-- alarm_insert of the first revision (lines 61-115): sorted insertion
plus the wake rule on `current_alarm`; the returned `Bool` records whether
the condition variable was signalled. -/
def alarm_insert_v1 (alarm : AlarmV1) (s : AlarmStateV1) : AlarmStateV1 × Bool :=
  if s.current_alarm = 0 ∨ alarm.scheduled_time < s.current_alarm then
    ({ alarm_list := insert_sorted_v1 alarm s.alarm_list,
       current_alarm := alarm.scheduled_time }, true)
  else
    ({ alarm_list := insert_sorted_v1 alarm s.alarm_list,
       current_alarm := s.current_alarm }, false)

/-- the search-and-unlink of `change_alarm` (first revision, lines
127-143): walk with a `prev` pointer to the first node with the given
alarm_id; if found, return it together with the list with that one node
unlinked. -/
def find_and_remove_first (alarm_id : Int) :
    List AlarmV1 → Option (AlarmV1 × List AlarmV1)
  | [] => none
  | a :: rest =>
      if a.alarm_id = alarm_id then some (a, rest)
      else
        match find_and_remove_first alarm_id rest with
        | none => none
        | some (x, rest') => some (x, a :: rest')

/-- change_alarm (first revision, lines 118-150): find the first node with
the given alarm_id; if none, do nothing; if found, overwrite its seconds,
recompute its scheduled_time as `now + time`, overwrite its message
(strncpy, truncation abstracted), unlink it, and re-insert it with
`alarm_insert`.  Nodes other than the first match — including further
nodes sharing the same alarm_id — are not touched. -/
def change_alarm (alarm_id : Int) (time : Int) (message : String) (now : Int)
    (s : AlarmStateV1) : AlarmStateV1 × Bool :=
  match find_and_remove_first alarm_id s.alarm_list with
  | none => (s, false)
  | some (a, rest) =>
      alarm_insert_v1
        { a with seconds := time, scheduled_time := now + time,
                 message := message }
        { s with alarm_list := rest }

/-- get_request_type from `alarm_utils.c` (lines 10-20): classify a raw
input line by `strncmp` against the three command names; since none of the
literals contains a NUL in its compared range, `strncmp(line, lit, |lit|) == 0`
is exactly "the line starts with lit". -/
def get_request_type (request : List Char) : alarm_request_type :=
  if ("Start_Alarm".toList).isPrefixOf request then
    alarm_request_type.START_ALARM
  else if ("Change_Alarm".toList).isPrefixOf request then
    alarm_request_type.CHANGE_ALARM
  else if ("Cancel_Alarm".toList).isPrefixOf request then
    alarm_request_type.CANCEL_ALARM
  else
    alarm_request_type.INVALID_REQUEST

/-- alarm_type_to_string from the repository's `alarm_utils.c` revision in
`src/unnamed/part_002` (lines 46-57). -/
def alarm_type_to_string : alarm_request_type → List Char
  | alarm_request_type.START_ALARM => "Start_Alarm".toList
  | alarm_request_type.CHANGE_ALARM => "Change_Alarm".toList
  | alarm_request_type.CANCEL_ALARM => "Cancel_Alarm".toList
  | alarm_request_type.INVALID_REQUEST => "Unknown".toList

/-- the Timeline ordering invariant: ascending by deadline. -/
def sortedByTime (l : List alarm_t) : Prop :=
  List.Pairwise (fun x y => x.time ≤ y.time) l

instance (l : List alarm_t) : Decidable (sortedByTime l) := by
  unfold sortedByTime; infer_instance

/-! Helper lemmas about the insertion walk. -/

theorem mem_insert_sorted {x a : alarm_t} :
    ∀ {l : List alarm_t}, x ∈ insert_sorted a l ↔ x = a ∨ x ∈ l := by
  intro l
  induction l with
  | nil => simp [insert_sorted]
  | cons next rest ih =>
      unfold insert_sorted
      by_cases hc : next.time ≥ a.time
      · rw [if_pos hc]; simp [List.mem_cons]
      · rw [if_neg hc]; simp [List.mem_cons, ih]; tauto

theorem sortedByTime_insert_sorted (a : alarm_t) :
    ∀ {l : List alarm_t}, sortedByTime l → sortedByTime (insert_sorted a l) := by
  intro l
  induction l with
  | nil => intro _; simp [insert_sorted, sortedByTime]
  | cons next rest ih =>
      intro h
      rw [sortedByTime, List.pairwise_cons] at h
      obtain ⟨hnext, hrest⟩ := h
      unfold insert_sorted
      by_cases hc : next.time ≥ a.time
      · rw [if_pos hc]
        rw [sortedByTime, List.pairwise_cons]
        refine ⟨?_, ?_⟩
        · intro x hx
          rcases List.mem_cons.mp hx with rfl | hx
          · exact hc
          · exact le_trans hc (hnext x hx)
        · rw [List.pairwise_cons]; exact ⟨hnext, hrest⟩
      · rw [if_neg hc]
        push_neg at hc
        rw [sortedByTime, List.pairwise_cons]
        refine ⟨?_, ih hrest⟩
        intro x hx
        rcases mem_insert_sorted.mp hx with rfl | hx
        · exact le_of_lt hc
        · exact hnext x hx

theorem insert_sorted_eq_cons (a : alarm_t) {l : List alarm_t}
    (h : ∀ x ∈ l, a.time ≤ x.time) : insert_sorted a l = a :: l := by
  cases l with
  | nil => rfl
  | cons next rest =>
      unfold insert_sorted
      rw [if_pos (h next (List.mem_cons_self next rest))]

theorem insert_sorted_split (a : alarm_t) :
    ∀ l : List alarm_t,
      insert_sorted a l =
        l.takeWhile (fun x => decide (x.time < a.time)) ++
          a :: l.dropWhile (fun x => decide (x.time < a.time)) := by
  intro l
  induction l with
  | nil => rfl
  | cons next rest ih =>
      by_cases hc : next.time ≥ a.time
      · have hb : decide (next.time < a.time) = false := by
          simp; omega
        unfold insert_sorted
        rw [if_pos hc]
        simp [List.takeWhile_cons, List.dropWhile_cons, hb]
      · have hb : decide (next.time < a.time) = true := by
          simp; omega
        unfold insert_sorted
        rw [if_neg hc]
        simp [List.takeWhile_cons, List.dropWhile_cons, hb]
        exact ih

theorem remove_all_with_id_eq_filter (alarm_id : Int) :
    ∀ l : List alarm_t,
      remove_all_with_id alarm_id l =
        l.filter (fun a => ! decide (a.id = alarm_id)) := by
  intro l
  induction l with
  | nil => rfl
  | cons next rest ih =>
      unfold remove_all_with_id
      by_cases hc : next.id = alarm_id
      · rw [if_pos hc]; simp [List.filter_cons, hc]; exact ih
      · rw [if_neg hc]; simp [List.filter_cons, hc]; exact ih

/-! Helper lemmas about the first revision's list operations. -/

theorem mem_insert_sorted_v1 {x a : AlarmV1} :
    ∀ {l : List AlarmV1}, x ∈ insert_sorted_v1 a l ↔ x = a ∨ x ∈ l := by
  intro l
  induction l with
  | nil => simp [insert_sorted_v1]
  | cons next rest ih =>
      unfold insert_sorted_v1
      by_cases hc : next.scheduled_time ≥ a.scheduled_time
      · rw [if_pos hc]; simp [List.mem_cons]
      · rw [if_neg hc]; simp [List.mem_cons, ih]; tauto

theorem sublist_insert_sorted_v1 (a : AlarmV1) :
    ∀ l : List AlarmV1, l.Sublist (insert_sorted_v1 a l) := by
  intro l
  induction l with
  | nil => simp [insert_sorted_v1]
  | cons next rest ih =>
      unfold insert_sorted_v1
      by_cases hc : next.scheduled_time ≥ a.scheduled_time
      · rw [if_pos hc]; exact List.Sublist.cons a (List.Sublist.refl _)
      · rw [if_neg hc]; exact List.Sublist.cons₂ next ih

theorem alarm_insert_v1_alarm_list (a : AlarmV1) (s : AlarmStateV1) :
    ((alarm_insert_v1 a s).1).alarm_list = insert_sorted_v1 a s.alarm_list := by
  unfold alarm_insert_v1; split <;> rfl

theorem find_and_remove_first_append (alarm_id : Int) (a : AlarmV1)
    (l1 l2 : List AlarmV1) :
    (∀ x ∈ l1, x.alarm_id ≠ alarm_id) → a.alarm_id = alarm_id →
      find_and_remove_first alarm_id (l1 ++ a :: l2) = some (a, l1 ++ l2) := by
  induction l1 with
  | nil =>
      intro _ ha
      simp [find_and_remove_first, ha]
  | cons y t ih =>
      intro h1 ha
      have hy : ¬ y.alarm_id = alarm_id := h1 y (List.mem_cons_self y t)
      simp only [List.cons_append]
      unfold find_and_remove_first
      rw [if_neg hy, ih (fun x hx => h1 x (List.mem_cons_of_mem y hx)) ha]

/-! Helper lemmas for the Handoff Buffer slots. -/

theorem getD_set_self {α : Type} (x d : α) (l : List α) (i : Nat)
    (h : i < l.length) : (l.set i x).getD i d = x := by
  induction l generalizing i with
  | nil => simp at h
  | cons a t ih =>
      cases i with
      | zero => rfl
      | succ n => exact ih n (by simpa using h)

theorem getD_set_ne {α : Type} (x d : α) (l : List α) (i j : Nat)
    (h : i ≠ j) : (l.set i x).getD j d = l.getD j d := by
  induction l generalizing i j with
  | nil => simp
  | cons a t ih =>
      cases i with
      | zero =>
          cases j with
          | zero => exact absurd rfl h
          | succ m => rfl
      | succ n =>
          cases j with
          | zero => rfl
          | succ m => exact ih n m (by omega)

/-! Claim theorems. -/

/-- C2 (code bug): inserting an alarm whose id already occurs among the live
entries does not leave the Timeline unchanged — the duplicate-id branch of
`alarm_insert` frees the new alarm and nulls the local pointer but lacks an
early return, so the insertion walk dereferences the NULL pointer
(`next->time >= alarm->time`), which is undefined behaviour (a crash),
modelled as `none`.  Evaluated here at the concrete failing input: a
Timeline holding the live alarm with id 1 and a new alarm with the same
id 1. -/
theorem alarm_insert_duplicate_id_crash :
    alarm_insert ⟨1, 7, 50, "dup", alarm_request_type.START_ALARM⟩
        ⟨[⟨1, 5, 100, "orig", alarm_request_type.START_ALARM⟩], 0⟩ = none := by
  decide

/-- C3: every successful `alarm_insert` call maps a Timeline sorted
ascending by deadline (the `time` field) to a sorted Timeline, so every
sequence of inserts from the empty list keeps the Timeline sorted at every
observation point. -/
theorem alarm_insert_preserves_sorted (alarm : alarm_t) (s s' : AlarmState)
    (sig : Bool) (hs : sortedByTime s.alarm_list)
    (h : alarm_insert alarm s = some (s', sig)) :
    sortedByTime s'.alarm_list := by
  by_cases hdup : hasId alarm.id s.alarm_list = true
  · exact absurd h (by simp [alarm_insert, hdup])
  · by_cases hc : s.current_alarm = 0 ∨ alarm.time < s.current_alarm
    · have h' : alarm_insert alarm s =
          some ({ alarm_list := insert_sorted alarm s.alarm_list,
                  current_alarm := alarm.time }, true) := by
        unfold alarm_insert; rw [if_neg hdup, if_pos hc]
      rw [h', Option.some_inj] at h
      injection h with h1 _
      rw [← h1]
      exact sortedByTime_insert_sorted alarm hs
    · have h' : alarm_insert alarm s =
          some ({ alarm_list := insert_sorted alarm s.alarm_list,
                  current_alarm := s.current_alarm }, false) := by
        unfold alarm_insert; rw [if_neg hdup, if_neg hc]
      rw [h', Option.some_inj] at h
      injection h with h1 _
      rw [← h1]
      exact sortedByTime_insert_sorted alarm hs

/-- witness for C3 at a concrete input: inserting deadline 50 in front of
deadline 100 yields a sorted Timeline. -/
theorem alarm_insert_preserves_sorted_witness :
    sortedByTime [⟨2, 1, 50, "x", alarm_request_type.START_ALARM⟩,
                  ⟨1, 2, 100, "y", alarm_request_type.START_ALARM⟩] :=
  alarm_insert_preserves_sorted
    ⟨2, 1, 50, "x", alarm_request_type.START_ALARM⟩
    ⟨[⟨1, 2, 100, "y", alarm_request_type.START_ALARM⟩], 0⟩
    ⟨[⟨2, 1, 50, "x", alarm_request_type.START_ALARM⟩,
      ⟨1, 2, 100, "y", alarm_request_type.START_ALARM⟩], 50⟩
    true (by decide) (by decide)

/-- C4 is false as stated: tie-breaking is not stable.  With an existing
entry of deadline 100, inserting a later alarm with the same deadline 100
places the new alarm BEFORE the existing one (the walk stops at the first
entry with `next->time >= alarm->time`, and equality satisfies `>=`), so
the result is the new alarm first — not the claimed existing-then-new
order. -/
theorem alarm_insert_equal_time_counterexample :
    alarm_insert ⟨2, 5, 100, "later", alarm_request_type.START_ALARM⟩
        ⟨[⟨1, 5, 100, "earlier", alarm_request_type.START_ALARM⟩], 0⟩ =
      some (⟨[⟨2, 5, 100, "later", alarm_request_type.START_ALARM⟩,
              ⟨1, 5, 100, "earlier", alarm_request_type.START_ALARM⟩], 100⟩,
            true) ∧
    ([⟨2, 5, 100, "later", alarm_request_type.START_ALARM⟩,
      ⟨1, 5, 100, "earlier", alarm_request_type.START_ALARM⟩]
        : List alarm_t) ≠
      [⟨1, 5, 100, "earlier", alarm_request_type.START_ALARM⟩,
       ⟨2, 5, 100, "later", alarm_request_type.START_ALARM⟩] := by
  decide

/-- C4 (amended): a successful `alarm_insert` places the new alarm
immediately before the first existing entry whose deadline is greater than
or equal to the new alarm's deadline, appending when no such entry exists;
consequently a later arrival with an equal deadline lands BEFORE the
existing equal-deadline entries, not after them. -/
theorem alarm_insert_placement (alarm : alarm_t) (s s' : AlarmState)
    (sig : Bool) (h : alarm_insert alarm s = some (s', sig)) :
    s'.alarm_list =
      s.alarm_list.takeWhile (fun x => decide (x.time < alarm.time)) ++
        alarm :: s.alarm_list.dropWhile (fun x => decide (x.time < alarm.time)) := by
  by_cases hdup : hasId alarm.id s.alarm_list = true
  · exact absurd h (by simp [alarm_insert, hdup])
  · by_cases hc : s.current_alarm = 0 ∨ alarm.time < s.current_alarm
    · have h' : alarm_insert alarm s =
          some ({ alarm_list := insert_sorted alarm s.alarm_list,
                  current_alarm := alarm.time }, true) := by
        unfold alarm_insert; rw [if_neg hdup, if_pos hc]
      rw [h', Option.some_inj] at h
      injection h with h1 _
      rw [← h1]
      exact insert_sorted_split alarm s.alarm_list
    · have h' : alarm_insert alarm s =
          some ({ alarm_list := insert_sorted alarm s.alarm_list,
                  current_alarm := s.current_alarm }, false) := by
        unfold alarm_insert; rw [if_neg hdup, if_neg hc]
      rw [h', Option.some_inj] at h
      injection h with h1 _
      rw [← h1]
      exact insert_sorted_split alarm s.alarm_list

/-- witness for C4's amended theorem at a concrete input. -/
theorem alarm_insert_placement_witness :
    ([⟨2, 5, 100, "later", alarm_request_type.START_ALARM⟩,
      ⟨1, 5, 100, "earlier", alarm_request_type.START_ALARM⟩]
        : List alarm_t) =
      ([⟨1, 5, 100, "earlier", alarm_request_type.START_ALARM⟩].takeWhile
          (fun x => decide (x.time < 100))) ++
        ⟨2, 5, 100, "later", alarm_request_type.START_ALARM⟩ ::
          ([⟨1, 5, 100, "earlier", alarm_request_type.START_ALARM⟩].dropWhile
            (fun x => decide (x.time < 100))) :=
  alarm_insert_placement
    ⟨2, 5, 100, "later", alarm_request_type.START_ALARM⟩
    ⟨[⟨1, 5, 100, "earlier", alarm_request_type.START_ALARM⟩], 0⟩
    ⟨[⟨2, 5, 100, "later", alarm_request_type.START_ALARM⟩,
      ⟨1, 5, 100, "earlier", alarm_request_type.START_ALARM⟩], 100⟩
    true (by decide)

/-- C5: a successful `alarm_insert` signals the Timeline's condition
variable (and retargets the Current Wait Target to the new alarm's
deadline) exactly when the Timeline was idle (`current_alarm == 0`) or the
new deadline is strictly earlier than the Current Wait Target; otherwise
`current_alarm` is left unchanged and no signal is sent. -/
theorem alarm_insert_signal_policy (alarm : alarm_t) (s s' : AlarmState)
    (sig : Bool) (h : alarm_insert alarm s = some (s', sig)) :
    (sig = true ↔ (s.current_alarm = 0 ∨ alarm.time < s.current_alarm)) ∧
    (sig = true → s'.current_alarm = alarm.time) ∧
    (sig = false → s'.current_alarm = s.current_alarm) := by
  by_cases hdup : hasId alarm.id s.alarm_list = true
  · exact absurd h (by simp [alarm_insert, hdup])
  · by_cases hc : s.current_alarm = 0 ∨ alarm.time < s.current_alarm
    · have h' : alarm_insert alarm s =
          some ({ alarm_list := insert_sorted alarm s.alarm_list,
                  current_alarm := alarm.time }, true) := by
        unfold alarm_insert; rw [if_neg hdup, if_pos hc]
      rw [h', Option.some_inj] at h
      injection h with h1 h2
      subst h2
      refine ⟨⟨fun _ => hc, fun _ => rfl⟩, fun _ => by rw [← h1], by simp⟩
    · have h' : alarm_insert alarm s =
          some ({ alarm_list := insert_sorted alarm s.alarm_list,
                  current_alarm := s.current_alarm }, false) := by
        unfold alarm_insert; rw [if_neg hdup, if_neg hc]
      rw [h', Option.some_inj] at h
      injection h with h1 h2
      subst h2
      refine ⟨⟨by simp, fun hcc => absurd hcc hc⟩, by simp, fun _ => by rw [← h1]⟩

/-- witness for C5 at a concrete input: inserting into an idle Timeline
signals and retargets the Current Wait Target. -/
theorem alarm_insert_signal_policy_witness :
    (true = true ↔ ((0 : Int) = 0 ∨ (50 : Int) < 0)) ∧
    (true = true →
      (⟨[⟨2, 1, 50, "x", alarm_request_type.START_ALARM⟩], 50⟩
          : AlarmState).current_alarm = 50) ∧
    (true = false →
      (⟨[⟨2, 1, 50, "x", alarm_request_type.START_ALARM⟩], 50⟩
          : AlarmState).current_alarm = 0) :=
  alarm_insert_signal_policy
    ⟨2, 1, 50, "x", alarm_request_type.START_ALARM⟩
    ⟨[], 0⟩
    ⟨[⟨2, 1, 50, "x", alarm_request_type.START_ALARM⟩], 50⟩
    true (by decide)

/-- C7 is false as stated: cancelling an id with no matching live alarm
does leave the Timeline unchanged, but the source reports the same
unconditional "Cancelled and Removed All Alarm Requests" confirmation as
the matching case — it never reports "not found". -/
theorem handle_cancel_no_match_counterexample :
    handle_cancel_alarm 5 [] = ([], CancelReport.removedAll) ∧
    CancelReport.removedAll ≠ CancelReport.notFound := by
  decide

/-- C7 (amended): for an id with no matching live entry,
`handle_cancel_alarm` leaves the Timeline exactly unchanged (but reports
the generic removal confirmation, not "not found"); for an id with
matches, it unlinks precisely the live entries carrying that id, keeping
all other entries with their fields and relative order intact.  (No
Display Registry exists in this revision, so nothing else is touched.) -/
theorem handle_cancel_alarm_frame (alarm_id : Int) (l : List alarm_t) :
    ((∀ a ∈ l, a.id ≠ alarm_id) →
      handle_cancel_alarm alarm_id l = (l, CancelReport.removedAll)) ∧
    ((handle_cancel_alarm alarm_id l).1).Sublist l ∧
    (∀ a ∈ (handle_cancel_alarm alarm_id l).1, a.id ≠ alarm_id) ∧
    (∀ a ∈ l, a.id ≠ alarm_id → a ∈ (handle_cancel_alarm alarm_id l).1) ∧
    (handle_cancel_alarm alarm_id l).2 = CancelReport.removedAll := by
  unfold handle_cancel_alarm
  rw [remove_all_with_id_eq_filter]
  refine ⟨?_, ?_, ?_, ?_, rfl⟩
  · intro hnone
    have : l.filter (fun a => ! decide (a.id = alarm_id)) = l := by
      rw [List.filter_eq_self]
      intro a ha
      simp [hnone a ha]
    rw [this]
  · exact List.filter_sublist l
  · intro a ha
    have := List.of_mem_filter ha
    simpa using this
  · intro a ha hne
    exact List.mem_filter.mpr ⟨ha, by simpa using hne⟩

/-- witness for C7's amended theorem: cancelling id 5 on a Timeline whose
single entry has id 1 leaves the Timeline unchanged. -/
theorem handle_cancel_alarm_frame_witness :
    handle_cancel_alarm 5 [⟨1, 2, 30, "m", alarm_request_type.START_ALARM⟩] =
      ([⟨1, 2, 30, "m", alarm_request_type.START_ALARM⟩],
       CancelReport.removedAll) :=
  (handle_cancel_alarm_frame 5
      [⟨1, 2, 30, "m", alarm_request_type.START_ALARM⟩]).1 (by decide)

/-- C9 (code bug): the Cancel_Alarm branch of `main` parses the id from the
line into the local `alarm_id` but then validates `alarm->id` and
`alarm->seconds` of the freshly malloc'd, never-assigned record instead.
Evaluated at the failing input: the line `Cancel_Alarm(-5)` (parsed id -5,
which the claim says must be rejected) with uninitialized memory that
happens to hold id 7 and seconds 3 — the request is accepted and an entry
enters the Timeline. -/
theorem main_cancel_branch_validation_bug :
    main_cancel_branch (-5) ⟨7, 3, 0, "junk", alarm_request_type.START_ALARM⟩
        100 ⟨[], 0⟩ =
      RequestOutcome.inserted
        ⟨[⟨7, 3, 103, "junk", alarm_request_type.CANCEL_ALARM⟩], 103⟩ true ∧
    (-5 : Int) ≤ 0 := by
  decide

/-- C1 is false as stated: the scheduler does not take the head "without
removing it from the Timeline".  At the top of the `alarm_thread` loop the
head is unlinked (`alarm = alarm_list; alarm_list = alarm->link;`) before
it is examined, so immediately after the take the examined alarm is no
longer in the Timeline.  Evaluated at a one-element Timeline. -/
theorem alarm_thread_take_removes_head :
    alarm_thread_take ⟨[⟨1, 10, 100, "A", alarm_request_type.START_ALARM⟩], 0⟩ =
      some (⟨1, 10, 100, "A", alarm_request_type.START_ALARM⟩,
            { alarm_list := [], current_alarm := 0 }) ∧
    ⟨1, 10, 100, "A", alarm_request_type.START_ALARM⟩ ∉
      ({ alarm_list := [], current_alarm := 0 } : AlarmState).alarm_list := by
  decide

/-- C1 (amended): once the Timeline is non-empty the scheduler REMOVES the
head (earliest) alarm `a`, arms the Current Wait Target to `a.time`
(`handle_start_alarm`), and waits with that absolute deadline.  If a new
alarm `b` with an earlier deadline is inserted during the wait, the insert
signals the condition variable and retargets `current_alarm` to `b.time`;
since `current_alarm` no longer equals `a.time`, the
`while (current_alarm == alarm->time)` guard fails without ETIMEDOUT, so
`handle_start_alarm` is not expired and re-inserts `a` — with all its
fields intact — via `alarm_insert`, after which the Timeline reads
`b :: a :: rest` and the loop re-observes the new head `b`. -/
theorem alarm_thread_preemption_requeue
    (a b : alarm_t) (rest : List alarm_t) (s : AlarmState)
    (hlist : s.alarm_list = a :: rest)
    (hsorted : sortedByTime (a :: rest))
    (hearlier : b.time < a.time)
    (hbid : hasId b.id rest = false)
    (haid : hasId a.id rest = false)
    (hab : a.id ≠ b.id) :
    alarm_thread_take s = some (a, { alarm_list := rest, current_alarm := 0 }) ∧
    alarm_insert b { alarm_list := rest, current_alarm := a.time } =
      some ({ alarm_list := b :: rest, current_alarm := b.time }, true) ∧
    b.time ≠ a.time ∧
    ∃ s₂ sig,
      alarm_insert a { alarm_list := b :: rest, current_alarm := b.time } =
          some (s₂, sig) ∧
        s₂.alarm_list = b :: a :: rest := by
  have hax : ∀ x ∈ rest, a.time ≤ x.time :=
    (List.pairwise_cons.mp hsorted).1
  have hbx : insert_sorted b rest = b :: rest :=
    insert_sorted_eq_cons b
      (fun x hx => le_trans (le_of_lt hearlier) (hax x hx))
  have hmem : hasId a.id (b :: rest) = false := by
    have hba : ¬ (b.id = a.id) := fun hh => hab hh.symm
    simp [hasId] at haid ⊢
    exact ⟨hba, haid⟩
  have hstep : insert_sorted a (b :: rest) = b :: a :: rest := by
    unfold insert_sorted
    rw [if_neg (not_le.mpr hearlier), insert_sorted_eq_cons a hax]
  refine ⟨?_, ?_, ne_of_lt hearlier, ?_⟩
  · simp [alarm_thread_take, hlist]
  · unfold alarm_insert
    rw [if_neg (by simp [hbid]), if_pos (Or.inr hearlier)]
    rw [show ({ alarm_list := rest, current_alarm := a.time }
          : AlarmState).alarm_list = rest from rfl] at *
    rw [hbx]
  · by_cases hc : b.time = 0 ∨ a.time < b.time
    · refine ⟨⟨b :: a :: rest, a.time⟩, true, ?_, rfl⟩
      unfold alarm_insert
      rw [if_neg (by simp [hmem]), if_pos hc, hstep]
    · refine ⟨⟨b :: a :: rest, b.time⟩, false, ?_, rfl⟩
      unfold alarm_insert
      rw [if_neg (by simp [hmem]), if_neg hc, hstep]

/-- witness for C1's amended theorem at a concrete scenario: Timeline
holds alarm 1 due at 100; during the armed wait alarm 2 due at 50 is
inserted; the wait is preempted and alarm 1 is re-inserted behind the new
head. -/
theorem alarm_thread_preemption_requeue_witness :
    alarm_thread_take ⟨[⟨1, 10, 100, "A", alarm_request_type.START_ALARM⟩], 0⟩ =
      some (⟨1, 10, 100, "A", alarm_request_type.START_ALARM⟩,
            { alarm_list := [], current_alarm := 0 }) ∧
    alarm_insert ⟨2, 3, 50, "B", alarm_request_type.START_ALARM⟩
        { alarm_list := [], current_alarm := 100 } =
      some ({ alarm_list := [⟨2, 3, 50, "B", alarm_request_type.START_ALARM⟩],
              current_alarm := 50 }, true) ∧
    (50 : Int) ≠ 100 ∧
    ∃ s₂ sig,
      alarm_insert ⟨1, 10, 100, "A", alarm_request_type.START_ALARM⟩
          { alarm_list := [⟨2, 3, 50, "B", alarm_request_type.START_ALARM⟩],
            current_alarm := 50 } =
          some (s₂, sig) ∧
        s₂.alarm_list = [⟨2, 3, 50, "B", alarm_request_type.START_ALARM⟩,
                         ⟨1, 10, 100, "A", alarm_request_type.START_ALARM⟩] :=
  alarm_thread_preemption_requeue
    ⟨1, 10, 100, "A", alarm_request_type.START_ALARM⟩
    ⟨2, 3, 50, "B", alarm_request_type.START_ALARM⟩
    [] ⟨[⟨1, 10, 100, "A", alarm_request_type.START_ALARM⟩], 0⟩
    rfl (by decide) (by decide) rfl rfl (by decide)

/-- C6: the Handoff Buffer keeps `0 ≤ count ≤ 4` at all times — the
producer blocks exactly while `count = 4`, the consumer blocks exactly
while `count = 0` (`count` is a `Nat`, so it is never negative) — each
successful operation preserves well-formedness while moving `count` by
one, and delivery is exactly-once in strict FIFO order: from any idle
well-formed buffer, pushing `x` then `y` and popping twice yields `x`
then `y`. -/
theorem circ_buff_bounds_and_fifo (x y : alarm_t) (b : circular_buffer_t)
    (hwf : circ_buff_wf b) :
    (circ_buff_insert x b = none ↔ b.count = CIRCULAR_BUFFER_SIZE) ∧
    (circ_buff_remove b = none ↔ b.count = 0) ∧
    (∀ b', circ_buff_insert x b = some b' →
        circ_buff_wf b' ∧ b'.count = b.count + 1) ∧
    (∀ p b', circ_buff_remove b = some (p, b') →
        circ_buff_wf b' ∧ b'.count + 1 = b.count) ∧
    (b.count = 0 →
      ∃ b₁ b₂ b₃ b₄,
        circ_buff_insert x b = some b₁ ∧
        circ_buff_insert y b₁ = some b₂ ∧
        circ_buff_remove b₂ = some (some x, b₃) ∧
        circ_buff_remove b₃ = some (some y, b₄)) := by
  obtain ⟨buf, ia, ra, cnt⟩ := b
  obtain ⟨hlen, hi, hr, hc, hiv⟩ := hwf
  simp only [CIRCULAR_BUFFER_SIZE] at hlen hi hr hc hiv
  refine ⟨?_, ?_, ?_, ?_, ?_⟩
  · unfold circ_buff_insert
    by_cases hfull : cnt = CIRCULAR_BUFFER_SIZE
    · rw [if_pos hfull]; simp [hfull]
    · rw [if_neg hfull]; simp [hfull]
  · unfold circ_buff_remove
    by_cases hemp : cnt = 0
    · rw [if_pos hemp]; simp [hemp]
    · rw [if_neg hemp]; simp [hemp]
  · intro b' hb'
    unfold circ_buff_insert at hb'
    by_cases hfull : cnt = CIRCULAR_BUFFER_SIZE
    · rw [if_pos hfull] at hb'; exact absurd hb' (by simp)
    · rw [if_neg hfull, Option.some_inj] at hb'
      simp only [CIRCULAR_BUFFER_SIZE] at hfull hb'
      rw [← hb']
      refine ⟨⟨?_, ?_, ?_, ?_, ?_⟩, rfl⟩ <;>
        simp [circ_buff_wf, CIRCULAR_BUFFER_SIZE, List.length_set, hlen] <;>
        omega
  · intro p b' hb'
    unfold circ_buff_remove at hb'
    by_cases hemp : cnt = 0
    · rw [if_pos hemp] at hb'; exact absurd hb' (by simp)
    · rw [if_neg hemp, Option.some_inj] at hb'
      injection hb' with _ hb2
      rw [← hb2]
      refine ⟨⟨?_, ?_, ?_, ?_, ?_⟩, ?_⟩ <;>
        simp [circ_buff_wf, CIRCULAR_BUFFER_SIZE, hlen] <;>
        omega
  · intro h0
    subst h0
    have hie : ia = ra := by omega
    subst hie
    have hne1 : (ia + 1) % 4 ≠ ia := by omega
    have e1 : ((buf.set ia (some x)).set ((ia + 1) % 4) (some y)).getD ia
        none = some x := by
      rw [getD_set_ne _ _ _ _ _ hne1]
      exact getD_set_self _ _ _ _ (by omega)
    have e2 : ((buf.set ia (some x)).set ((ia + 1) % 4) (some y)).getD
        ((ia + 1) % 4) none = some y := by
      refine getD_set_self _ _ _ _ ?_
      rw [List.length_set, hlen]
      omega
    refine ⟨⟨buf.set ia (some x), (ia + 1) % 4, ia, 1⟩,
            ⟨(buf.set ia (some x)).set ((ia + 1) % 4) (some y),
             ((ia + 1) % 4 + 1) % 4, ia, 2⟩,
            ⟨(buf.set ia (some x)).set ((ia + 1) % 4) (some y),
             ((ia + 1) % 4 + 1) % 4, (ia + 1) % 4, 1⟩,
            ⟨(buf.set ia (some x)).set ((ia + 1) % 4) (some y),
             ((ia + 1) % 4 + 1) % 4, ((ia + 1) % 4 + 1) % 4, 0⟩,
            rfl, rfl, ?_, ?_⟩
    · unfold circ_buff_remove
      rw [if_neg (by omega : ¬ (2 : Nat) = 0), e1]
      rfl
    · unfold circ_buff_remove
      rw [if_neg (by omega : ¬ (1 : Nat) = 0), e2]
      rfl

/-- witness for C6 at the concrete empty four-slot buffer with cursors at
zero, pushing alarms 1 and 2. -/
theorem circ_buff_bounds_and_fifo_witness :
    (circ_buff_insert ⟨1, 1, 10, "x", alarm_request_type.START_ALARM⟩
        ⟨[none, none, none, none], 0, 0, 0⟩ = none ↔
      (⟨[none, none, none, none], 0, 0, 0⟩
          : circular_buffer_t).count = CIRCULAR_BUFFER_SIZE) ∧
    (circ_buff_remove ⟨[none, none, none, none], 0, 0, 0⟩ = none ↔
      (⟨[none, none, none, none], 0, 0, 0⟩
          : circular_buffer_t).count = 0) ∧
    (∀ b', circ_buff_insert ⟨1, 1, 10, "x", alarm_request_type.START_ALARM⟩
        ⟨[none, none, none, none], 0, 0, 0⟩ = some b' →
        circ_buff_wf b' ∧
          b'.count = (⟨[none, none, none, none], 0, 0, 0⟩
              : circular_buffer_t).count + 1) ∧
    (∀ p b', circ_buff_remove ⟨[none, none, none, none], 0, 0, 0⟩ =
        some (p, b') →
        circ_buff_wf b' ∧
          b'.count + 1 = (⟨[none, none, none, none], 0, 0, 0⟩
              : circular_buffer_t).count) ∧
    ((⟨[none, none, none, none], 0, 0, 0⟩ : circular_buffer_t).count = 0 →
      ∃ b₁ b₂ b₃ b₄,
        circ_buff_insert ⟨1, 1, 10, "x", alarm_request_type.START_ALARM⟩
            ⟨[none, none, none, none], 0, 0, 0⟩ = some b₁ ∧
        circ_buff_insert ⟨2, 2, 20, "y", alarm_request_type.START_ALARM⟩
            b₁ = some b₂ ∧
        circ_buff_remove b₂ =
          some (some ⟨1, 1, 10, "x", alarm_request_type.START_ALARM⟩, b₃) ∧
        circ_buff_remove b₃ =
          some (some ⟨2, 2, 20, "y", alarm_request_type.START_ALARM⟩, b₄)) :=
  circ_buff_bounds_and_fifo
    ⟨1, 1, 10, "x", alarm_request_type.START_ALARM⟩
    ⟨2, 2, 20, "y", alarm_request_type.START_ALARM⟩
    ⟨[none, none, none, none], 0, 0, 0⟩ (by decide)

/-- C8 is false as stated: `change_alarm` updates only the FIRST Timeline
entry carrying the requested id, so when two live entries share id 1, the
stale second entry — with its old interval 9 and old message "b" —
survives the change to interval 7 and message "c", contradicting "only the
most recent change for id X survives". -/
theorem change_alarm_stale_duplicate_counterexample :
    (change_alarm 1 7 "c" 100
        ⟨[⟨1, 5, 100, "a"⟩, ⟨1, 9, 200, "b"⟩], 0⟩).1.alarm_list =
      [⟨1, 7, 107, "c"⟩, ⟨1, 9, 200, "b"⟩] ∧
    (⟨1, 9, 200, "b"⟩ : AlarmV1).seconds ≠ 7 ∧
    (⟨1, 9, 200, "b"⟩ : AlarmV1).message ≠ "c" := by
  decide

/-- C8 (amended): when the Timeline splits as `l1 ++ a :: l2` with `a` the
first entry carrying the requested id, `change_alarm` replaces `a`'s
interval and message, recomputes its deadline as `now + time`, and
re-inserts the updated entry in deadline order; every other entry —
including any later entries sharing the same id — keeps its fields and its
position relative to the others (`l1 ++ l2` is a sublist of the result).
Only when the id occurs at most once does every surviving entry with that
id carry the new values. -/
theorem change_alarm_frame (alarm_id time : Int) (msg : String)
    (now cur : Int) (l1 l2 : List AlarmV1) (a a' : AlarmV1)
    (r : List AlarmV1)
    (h1 : ∀ x ∈ l1, x.alarm_id ≠ alarm_id)
    (ha : a.alarm_id = alarm_id)
    (ha' : a' = { a with seconds := time, scheduled_time := now + time,
                         message := msg })
    (hr : r = (change_alarm alarm_id time msg now
        ⟨l1 ++ a :: l2, cur⟩).1.alarm_list) :
    r = insert_sorted_v1 a' (l1 ++ l2) ∧
    a' ∈ r ∧
    (l1 ++ l2).Sublist r ∧
    ((∀ x ∈ l2, x.alarm_id ≠ alarm_id) →
      ∀ x ∈ r, x.alarm_id = alarm_id → x = a') := by
  have hfind :
      find_and_remove_first alarm_id (l1 ++ a :: l2) = some (a, l1 ++ l2) :=
    find_and_remove_first_append alarm_id a l1 l2 h1 ha
  have hrr : r = insert_sorted_v1 a' (l1 ++ l2) := by
    rw [hr]
    unfold change_alarm
    rw [hfind]
    rw [alarm_insert_v1_alarm_list, ha']
  refine ⟨hrr, ?_, ?_, ?_⟩
  · rw [hrr]; exact mem_insert_sorted_v1.mpr (Or.inl rfl)
  · rw [hrr]; exact sublist_insert_sorted_v1 a' (l1 ++ l2)
  · intro h2 x hx hxid
    rw [hrr] at hx
    rcases mem_insert_sorted_v1.mp hx with rfl | hx
    · rfl
    · rcases List.mem_append.mp hx with hx1 | hx2
      · exact absurd hxid (h1 x hx1)
      · exact absurd hxid (h2 x hx2)

/-- witness for C8's amended theorem at a concrete change: Timeline
`[id 1 due 100, id 2 due 200]`, change id 1 to interval 7, message "c",
at now = 100. -/
theorem change_alarm_frame_witness :
    ([⟨1, 7, 107, "c"⟩, ⟨2, 9, 200, "b"⟩] : List AlarmV1) =
      insert_sorted_v1 ⟨1, 7, 107, "c"⟩ ([] ++ [⟨2, 9, 200, "b"⟩]) ∧
    (⟨1, 7, 107, "c"⟩ : AlarmV1) ∈
      ([⟨1, 7, 107, "c"⟩, ⟨2, 9, 200, "b"⟩] : List AlarmV1) ∧
    (([] ++ [⟨2, 9, 200, "b"⟩]) : List AlarmV1).Sublist
      [⟨1, 7, 107, "c"⟩, ⟨2, 9, 200, "b"⟩] ∧
    ((∀ x ∈ ([⟨2, 9, 200, "b"⟩] : List AlarmV1), x.alarm_id ≠ 1) →
      ∀ x ∈ ([⟨1, 7, 107, "c"⟩, ⟨2, 9, 200, "b"⟩] : List AlarmV1),
        x.alarm_id = 1 → x = ⟨1, 7, 107, "c"⟩) :=
  change_alarm_frame 1 7 "c" 100 0 [] [⟨2, 9, 200, "b"⟩]
    ⟨1, 5, 100, "a"⟩ ⟨1, 7, 107, "c"⟩
    [⟨1, 7, 107, "c"⟩, ⟨2, 9, 200, "b"⟩]
    (by decide) rfl (by decide) (by decide)

/-- C10: classification round-trips on the three valid request kinds —
`get_request_type (alarm_type_to_string t) = t` — and any input line that
does not begin with one of the three command names is classified
INVALID_REQUEST. -/
theorem request_type_round_trip (t : alarm_request_type) (line : List Char)
    (ht : t ≠ alarm_request_type.INVALID_REQUEST)
    (hp1 : ("Start_Alarm".toList).isPrefixOf line = false)
    (hp2 : ("Change_Alarm".toList).isPrefixOf line = false)
    (hp3 : ("Cancel_Alarm".toList).isPrefixOf line = false) :
    get_request_type (alarm_type_to_string t) = t ∧
    get_request_type line = alarm_request_type.INVALID_REQUEST := by
  refine ⟨?_, ?_⟩
  · cases t with
    | START_ALARM => decide
    | CHANGE_ALARM => decide
    | CANCEL_ALARM => decide
    | INVALID_REQUEST => exact absurd rfl ht
  · unfold get_request_type
    rw [hp1, hp2, hp3]
    rfl

/-- witness for C10 at a concrete request kind and a concrete
unclassifiable line. -/
theorem request_type_round_trip_witness :
    get_request_type (alarm_type_to_string alarm_request_type.START_ALARM) =
      alarm_request_type.START_ALARM ∧
    get_request_type ("hello".toList) = alarm_request_type.INVALID_REQUEST :=
  request_type_round_trip alarm_request_type.START_ALARM ("hello".toList)
    (by decide) (by decide) (by decide) (by decide)

end NewAlarmCond
